import Mathlib

/-!
Verification of the tutorial notebooks of NSLS-II/tutorial-docker.

The repository consists of two Jupyter notebooks.  The first one
("Powder Diffraction/Exposures and Dark Frames.ipynb") drives a simulated
beamline: it defines a Bluesky plan `dark_light_collection` that closes a
shutter, loads a sample, takes one dark exposure, opens the shutter, takes
`num_lights` light exposures and closes the shutter again, collecting the
run identifiers returned by each `count`; a `custom_plan` that repeats the
dark/light collection and appends the reduced intensity of each repetition
to the module-level list `new_int_list`; and it uses a reduction helper
`process_data` supplied by the tutorial's `utils.py`.  The second notebook
("archive/talks/databroker_demo.ipynb") defines a `gaussian` fit model and
a `mega_plan` that performs a count run and a scan run for each of three
samples, and asserts that data-broker lookup by full and by partial run
identifier returns the most recent header.

We embed the author-written plans shallowly.  A plan is interpreted against
an explicit simulated-hardware state (`HW`); executing it returns the final
state, the collected run identifiers and the trace of instrument actions it
yielded, in order.  Fallible framework calls are modelled separately with
`Except`-returning operations to study exception propagation.
-/

namespace TutorialDocker

/-- The state of the simulated hardware and run engine visible to the
notebooks: whether the shutter is open (`light(True)` opens it), which
sample is currently loaded, the next fresh run identifier the engine will
assign to a `count`, and the simulated clock advanced by `sim_sleep`. -/
structure HW where
  shutter : Bool
  sample : Option Int
  nextUid : Nat
  clock : Nat
deriving Repr, DecidableEq

/-- One instrument action yielded by a plan, in the order the run engine
executes them: a shutter move (`light(b)`), a sample load
(`load_sample(n)`), or a detector exposure (`count([detector])`) that the
engine answered with run identifier `uid`. -/
inductive Ev where
  | shutter (b : Bool)
  | load (n : Int)
  | exposure (uid : Nat)
deriving Repr, DecidableEq

/-- Effect of `light(b)` on the hardware: sets the shutter. -/
def light (b : Bool) (st : HW) : HW :=
  { st with shutter := b }

/-- Effect of `load_sample(n)`: the sample holder now holds sample `n`. -/
def load_sample (n : Int) (st : HW) : HW :=
  { st with sample := some n }

/-- Effect of `count([detector])`: the engine performs one exposure and
returns the fresh run identifier it assigned to the run. -/
def count (st : HW) : HW × Nat :=
  ({ st with nextUid := st.nextUid + 1 }, st.nextUid)

/-- Effect of `sim_sleep(t)`: advances the simulated clock. -/
def sim_sleep (t : Nat) (st : HW) : HW :=
  { st with clock := st.clock + t }

/-- The `for i in range(num_lights)` loop of `dark_light_collection`:
takes `n` exposures in order, returning the final state, the run
identifiers in the order they were taken, and the corresponding trace. -/
def count_loop (st : HW) : Nat → HW × List Nat × List Ev
  | 0 => (st, [], [])
  | n + 1 =>
    let p := count st
    let r := count_loop p.1 n
    (r.1, p.2 :: r.2.1, Ev.exposure p.2 :: r.2.2)

/-- The plan `dark_light_collection(sample_num, num_lights=1)` of
"Exposures and Dark Frames.ipynb", executed by the run engine from state
`st`: close the shutter, load the sample, take a dark exposure and record
its identifier, open the shutter, take `num_lights` light exposures
recording each identifier, close the shutter.  Returns the final state,
the collected identifiers `uids` (dark first), and the yielded trace.
The notebook's default for `num_lights` is `1`. -/
def dark_light_collection (sample_num : Int) (num_lights : Nat) (st : HW) :
    HW × List Nat × List Ev :=
  let st1 := light false st
  let st2 := load_sample sample_num st1
  let p := count st2
  let darkUid := p.2
  let st3 := light true p.1
  let q := count_loop st3 num_lights
  let st4 := light false q.1
  (st4,
   darkUid :: q.2.1,
   Ev.shutter false :: Ev.load sample_num :: Ev.exposure darkUid :: Ev.shutter true ::
     (q.2.2 ++ [Ev.shutter false]))

/-- Replay a trace from initial shutter state `sh` and collect, in order,
the identifiers of the exposures taken while the shutter was closed
(the dark exposures). -/
def dark_uids (sh : Bool) : List Ev → List Nat
  | [] => []
  | Ev.shutter b :: r => dark_uids b r
  | Ev.load _ :: r => dark_uids sh r
  | Ev.exposure u :: r => if sh then dark_uids sh r else u :: dark_uids sh r

/-- Replay a trace from initial shutter state `sh` and collect, in order,
the identifiers of the exposures taken while the shutter was open
(the light exposures). -/
def light_uids (sh : Bool) : List Ev → List Nat
  | [] => []
  | Ev.shutter b :: r => light_uids b r
  | Ev.load _ :: r => light_uids sh r
  | Ev.exposure u :: r => if sh then u :: light_uids sh r else light_uids sh r

/-- The number of detector exposures in a trace. -/
def num_exposures : List Ev → Nat
  | [] => 0
  | Ev.shutter _ :: r => num_exposures r
  | Ev.load _ :: r => num_exposures r
  | Ev.exposure _ :: r => num_exposures r + 1

lemma count_loop_spec (n : Nat) (st : HW) :
    count_loop st n =
      ({ st with nextUid := st.nextUid + n },
       (List.range n).map (fun i => st.nextUid + i),
       (List.range n).map (fun i => Ev.exposure (st.nextUid + i))) := by
  induction n generalizing st with
  | zero => simp [count_loop]
  | succ k ih =>
    simp only [count_loop, count, ih, List.range_succ_eq_map, List.map_cons, List.map_map,
      Prod.mk.injEq]
    refine ⟨by congr 1; omega, ?_, ?_⟩
    · simp [Function.comp_def]
      intros
      omega
    · simp [Function.comp_def]
      intros
      omega

lemma dark_uids_exposures_append {A : Type} (f : A → Nat) (l : List A) (t : List Ev) :
    dark_uids true (l.map (fun i => Ev.exposure (f i)) ++ t) = dark_uids true t := by
  induction l with
  | nil => rfl
  | cons a r ih => simpa [dark_uids] using ih

lemma light_uids_exposures_append {A : Type} (f : A → Nat) (l : List A) (t : List Ev) :
    light_uids true (l.map (fun i => Ev.exposure (f i)) ++ t) =
      l.map f ++ light_uids true t := by
  induction l with
  | nil => rfl
  | cons a r ih => simpa [light_uids] using ih

lemma num_exposures_append (s t : List Ev) :
    num_exposures (s ++ t) = num_exposures s + num_exposures t := by
  induction s with
  | nil => simp [num_exposures]
  | cons e r ih =>
    cases e <;> simp [num_exposures, ih]
    omega

lemma num_exposures_map_exposure {A : Type} (f : A → Nat) (l : List A) :
    num_exposures (l.map (fun i => Ev.exposure (f i))) = l.length := by
  induction l with
  | nil => rfl
  | cons a r ih => simpa [num_exposures] using ih

lemma dark_light_collection_trace (s : Int) (n : Nat) (st : HW) :
    (dark_light_collection s n st).2.2 =
      [Ev.shutter false, Ev.load s, Ev.exposure st.nextUid, Ev.shutter true]
        ++ ((List.range n).map (fun i => st.nextUid + 1 + i)).map Ev.exposure
        ++ [Ev.shutter false] := by
  simp [dark_light_collection, count, light, load_sample, count_loop_spec, List.map_map,
    Function.comp]

lemma dark_light_collection_uids (s : Int) (n : Nat) (st : HW) :
    (dark_light_collection s n st).2.1 =
      st.nextUid :: (List.range n).map (fun i => st.nextUid + 1 + i) := by
  simp [dark_light_collection, count, light, load_sample, count_loop_spec]

lemma dark_light_collection_state (s : Int) (n : Nat) (st : HW) :
    (dark_light_collection s n st).1 =
      { shutter := false, sample := some s, nextUid := st.nextUid + 1 + n,
        clock := st.clock } := by
  simp [dark_light_collection, count, light, load_sample, count_loop_spec]

/-! ### Data reduction: `process_data` and `custom_plan` -/

/-- A detector image: the grid of its pixel values. -/
abbrev Image := List Int

/-- A one-dimensional intensity curve, the output of azimuthal
integration. -/
abbrev Intensity := List Int

/-- Pixelwise image subtraction, as numpy's `-` performs on images. -/
def im_sub (a b : Image) : Image :=
  List.zipWith (fun x y => x - y) a b

/-- Reduce a list of light-run identifiers with dark subtraction: for each
identifier in order, retrieve its image, subtract the dark image, and
integrate the difference. -/
def reduce_sub (retrieve : Nat → Image) (integrate : Image → Intensity)
    (dark : Image) : List Nat → List Intensity
  | [] => []
  | u :: r => integrate (im_sub (retrieve u) dark) :: reduce_sub retrieve integrate dark r

/-- Reduce a list of run identifiers without dark subtraction: for each
identifier in order, retrieve its image and integrate it. -/
def reduce_raw (retrieve : Nat → Image) (integrate : Image → Intensity) :
    List Nat → List Intensity
  | [] => []
  | u :: r => integrate (retrieve u) :: reduce_raw retrieve integrate r

/-- Modelled from the spec: `process_data` is defined in the tutorial's
`utils.py`, which is not present under `src/`.  The spec describes it as a
post-hoc reduction helper that accepts the list of identifiers produced by
`dark_light_collection`, retrieves the corresponding images from the
external store, subtracts the first (dark) image from each subsequent
(light) image, and applies an external azimuthal-integration routine to
produce an intensity curve, optionally returning only the dark or only the
light component.  The external store and the azimuthal integrator are the
parameters `retrieve` and `integrate`; the result is the list of intensity
curves, one per light identifier (a single curve for the notebook's
default `num_lights = 1`). -/
def process_data (retrieve : Nat → Image) (integrate : Image → Intensity)
    (return_dark : Bool) (return_light : Bool) : List Nat → List Intensity
  | [] => []
  | darkUid :: lightUids =>
    if return_dark then [integrate (retrieve darkUid)]
    else if return_light then reduce_raw retrieve integrate lightUids
    else reduce_sub retrieve integrate (retrieve darkUid) lightUids

/-- The plan `custom_plan(sample_num, sleep_time=0, num_loops=1)` of
"Exposures and Dark Frames.ipynb": each loop iteration runs
`dark_light_collection(sample_num)` (with its default `num_lights = 1`),
appends `process_data(this_pair)` to the module-level list `new_int_list`,
and sleeps `sleep_time` simulated seconds.  The module-level list is
threaded explicitly: the plan maps its pre-state (and the hardware state)
to its post-state. -/
def custom_plan (retrieve : Nat → Image) (integrate : Image → Intensity)
    (sample_num : Int) (sleep_time : Nat) :
    Nat → HW → List (List Intensity) → HW × List (List Intensity)
  | 0, st, new_int_list => (st, new_int_list)
  | k + 1, st, new_int_list =>
    let r := dark_light_collection sample_num 1 st
    custom_plan retrieve integrate sample_num sleep_time k
      (sim_sleep sleep_time r.1)
      (new_int_list ++ [process_data retrieve integrate false false r.2.1])

/-! ### The databroker demo notebook -/

/-- The kind of a run performed by `mega_plan`: a `bp.count([det])` run or
a `bp.scan([det], motor, start, stop, num)` run. -/
inductive RunKind where
  | count_run
  | scan_run (start stop : Int) (num : Nat)
deriving Repr, DecidableEq

/-- The user-supplied metadata `mega_plan` attaches to a run. -/
structure RunMD where
  operator : String
  role : String
  sample : String
deriving Repr, DecidableEq

/-- One run as `mega_plan` requests it: its kind and its metadata. -/
structure RunSpec where
  kind : RunKind
  md : RunMD
deriving Repr, DecidableEq

/-- The plan `mega_plan(operator)` of "databroker_demo.ipynb": for each
sample in `('A', 'B', 'C')` in that order, a `bp.count` run with metadata
`role='calibration'`, then a `bp.scan` run over the motor from -1 to 3 in
10 points with metadata `role='ascan'`, both carrying the operator and the
sample. -/
def mega_plan (operator : String) : List RunSpec :=
  (["A", "B", "C"] : List String).flatMap (fun sample =>
    [{ kind := RunKind.count_run,
       md := { operator := operator, role := "calibration", sample := sample } },
     { kind := RunKind.scan_run (-1) 3 10,
       md := { operator := operator, role := "ascan", sample := sample } }])

/-- A run header held by the data broker, carrying the run identifier
(uid) of its run, a string of characters. -/
structure Header where
  uid : List Char
deriving Repr, DecidableEq

/-- Modelled from the spec: the data broker's indexing (`db[key]`) belongs
to the external databroker library and is absent from `src/`.  The spec
describes "data-broker indexing by run identifier or partial identifier";
we model the broker as the list of inserted headers, most recent first
(so `db[-1]` is the head), and indexing by a string as returning the most
recently inserted header whose identifier extends that string. -/
def broker_lookup (db : List Header) (key : List Char) : Option Header :=
  List.find? (fun h => List.isPrefixOf key h.uid) db

/-- The fit model `gaussian(x, A, sigma, x0)` of "databroker_demo.ipynb":
`A * np.exp(-(x - x0)**2 / (2 * sigma**2))`, over the real numbers. -/
noncomputable def gaussian (x A sigma x0 : ℝ) : ℝ :=
  A * Real.exp (-(x - x0) ^ 2 / (2 * sigma ^ 2))

/-! ### Exception propagation

Python exceptions are modelled with `Except`: each framework primitive
either returns normally or raises an error value, and the plans compose
the calls monadically with no handler anywhere, mirroring the absence of
any try/except in the notebooks. -/

/-- Fallible versions of the instrument primitives the plans call:
shutter control, sample load, detector count, and the simulated sleep. -/
structure OpsE (E : Type) where
  light : Bool → HW → Except E HW
  load_sample : Int → HW → Except E HW
  count : HW → Except E (HW × Nat)
  sleep : Nat → HW → Except E HW

/-- Fallible versions of the reduction primitives `process_data` calls:
image retrieval from the external store and azimuthal integration. -/
structure RedOpsE (E : Type) where
  retrieve : Nat → Except E Image
  integrate : Image → Except E Intensity

/-- The light-exposure loop of `dark_light_collection`, over fallible
primitives. -/
def count_loopE {E : Type} (ops : OpsE E) : Nat → HW → Except E (HW × List Nat)
  | 0, st => Except.ok (st, [])
  | n + 1, st => do
    let p ← ops.count st
    let r ← count_loopE ops n p.1
    Except.ok (r.1, p.2 :: r.2)

/-- `dark_light_collection` over fallible primitives: the same sequence of
framework calls, with no handler, so any raise short-circuits the plan. -/
def dark_light_collectionE {E : Type} (ops : OpsE E) (sample_num : Int)
    (num_lights : Nat) (st : HW) : Except E (HW × List Nat) := do
  let st1 ← ops.light false st
  let st2 ← ops.load_sample sample_num st1
  let p ← ops.count st2
  let st3 ← ops.light true p.1
  let q ← count_loopE ops num_lights st3
  let st4 ← ops.light false q.1
  Except.ok (st4, p.2 :: q.2)

/-- The dark-subtraction reduction of `process_data` over fallible
primitives: for each light identifier in order, retrieve its image,
integrate the dark-subtracted difference, and carry on — with no handler,
so any raise short-circuits. -/
def reduce_subE {E : Type} (red : RedOpsE E) (dark : Image) :
    List Nat → Except E (List Intensity)
  | [] => Except.ok []
  | u :: rest => do
    let im ← red.retrieve u
    let curve ← red.integrate (im_sub im dark)
    let more ← reduce_subE red dark rest
    Except.ok (curve :: more)

/-- The subtraction-free reduction of `process_data` over fallible
primitives. -/
def reduce_rawE {E : Type} (red : RedOpsE E) : List Nat → Except E (List Intensity)
  | [] => Except.ok []
  | u :: rest => do
    let im ← red.retrieve u
    let curve ← red.integrate im
    let more ← reduce_rawE red rest
    Except.ok (curve :: more)

/-- `process_data` over fallible retrieval and integration: the same
reduction as the pure model, with no handler, so a raise during image
retrieval or integration short-circuits the helper. -/
def process_dataE {E : Type} (red : RedOpsE E) (return_dark : Bool)
    (return_light : Bool) : List Nat → Except E (List Intensity)
  | [] => Except.ok []
  | darkUid :: lightUids =>
    if return_dark then do
      let dark ← red.retrieve darkUid
      let c ← red.integrate dark
      Except.ok [c]
    else if return_light then reduce_rawE red lightUids
    else do
      let dark ← red.retrieve darkUid
      reduce_subE red dark lightUids

/-- `custom_plan` over fallible primitives, in the source's order per
iteration: run the dark/light collection, reduce its pair with
`process_data` (fallible retrieval and integration), append the curves to
the module-level list, sleep — each call unguarded. -/
def custom_planE {E : Type} (ops : OpsE E) (red : RedOpsE E)
    (sample_num : Int) (sleep_time : Nat) :
    Nat → HW → List (List Intensity) → Except E (HW × List (List Intensity))
  | 0, st, new_int_list => Except.ok (st, new_int_list)
  | k + 1, st, new_int_list => do
    let r ← dark_light_collectionE ops sample_num 1 st
    let curves ← process_dataE red false false r.2
    let st2 ← ops.sleep sleep_time r.1
    custom_planE ops red sample_num sleep_time k st2 (new_int_list ++ [curves])

/-- An error value `e` that some instrument primitive raises on some
input. -/
def prim_raises {E : Type} (ops : OpsE E) (e : E) : Prop :=
  (∃ b st, ops.light b st = Except.error e) ∨
  (∃ m st, ops.load_sample m st = Except.error e) ∨
  (∃ st, ops.count st = Except.error e) ∨
  (∃ t st, ops.sleep t st = Except.error e)

/-- An error value `e` that some reduction primitive raises on some
input. -/
def red_raises {E : Type} (red : RedOpsE E) (e : E) : Prop :=
  (∃ u, red.retrieve u = Except.error e) ∨
  (∃ im, red.integrate im = Except.error e)

/-! ### Supporting lemmas -/

lemma dark_uids_dlc (s : Int) (n : Nat) (st : HW) :
    dark_uids st.shutter (dark_light_collection s n st).2.2 = [st.nextUid] := by
  rw [dark_light_collection_trace]
  simp [dark_uids, dark_uids_exposures_append, Function.comp_def]

lemma light_uids_dlc (s : Int) (n : Nat) (st : HW) :
    light_uids st.shutter (dark_light_collection s n st).2.2 =
      (List.range n).map (fun i => st.nextUid + 1 + i) := by
  rw [dark_light_collection_trace]
  simp [light_uids, light_uids_exposures_append, Function.comp_def]

lemma reduce_sub_eq_map (retrieve : Nat → Image) (integrate : Image → Intensity)
    (dark : Image) (l : List Nat) :
    reduce_sub retrieve integrate dark l =
      l.map (fun u => integrate (im_sub (retrieve u) dark)) := by
  induction l with
  | nil => rfl
  | cons u r ih => simp [reduce_sub, ih]

lemma reduce_raw_eq_map (retrieve : Nat → Image) (integrate : Image → Intensity)
    (l : List Nat) :
    reduce_raw retrieve integrate l = l.map (fun u => integrate (retrieve u)) := by
  induction l with
  | nil => rfl
  | cons u r ih => simp [reduce_raw, ih]

lemma except_ok_bind {E α β : Type} (a : α) (f : α → Except E β) :
    (Except.ok a >>= f : Except E β) = f a := rfl

lemma except_error_bind {E α β : Type} (e : E) (f : α → Except E β) :
    (Except.error e >>= f : Except E β) = Except.error e := rfl

lemma count_loopE_error_src {E : Type} (ops : OpsE E) (n : Nat) (st : HW) (e : E)
    (h : count_loopE ops n st = Except.error e) :
    ∃ st', ops.count st' = Except.error e := by
  induction n generalizing st with
  | zero => simp [count_loopE] at h
  | succ k ih =>
    rw [count_loopE] at h
    cases hc : ops.count st with
    | error e' =>
      rw [hc, except_error_bind] at h
      cases h
      exact ⟨st, hc⟩
    | ok p =>
      rw [hc, except_ok_bind] at h
      cases hr : count_loopE ops k p.1 with
      | error e'' =>
        rw [hr, except_error_bind] at h
        cases h
        exact ih p.1 hr
      | ok r =>
        rw [hr, except_ok_bind] at h
        exact absurd h (by simp)

lemma count_loopE_total {E : Type} (ops : OpsE E)
    (hc : ∀ st, ∃ r, ops.count st = Except.ok r) (n : Nat) (st : HW) :
    ∃ r, count_loopE ops n st = Except.ok r := by
  induction n generalizing st with
  | zero => exact ⟨(st, []), rfl⟩
  | succ k ih =>
    obtain ⟨p, hp⟩ := hc st
    obtain ⟨r, hr⟩ := ih p.1
    exact ⟨(r.1, p.2 :: r.2), by rw [count_loopE, hp, except_ok_bind, hr, except_ok_bind]⟩

lemma dark_light_collectionE_error_src {E : Type} (ops : OpsE E) (s : Int)
    (n : Nat) (st : HW) (e : E)
    (h : dark_light_collectionE ops s n st = Except.error e) :
    prim_raises ops e := by
  rw [dark_light_collectionE] at h
  cases hl1 : ops.light false st with
  | error e1 =>
    rw [hl1, except_error_bind] at h
    cases h
    exact Or.inl ⟨false, st, hl1⟩
  | ok st1 =>
    rw [hl1, except_ok_bind] at h
    cases hl2 : ops.load_sample s st1 with
    | error e2 =>
      rw [hl2, except_error_bind] at h
      cases h
      exact Or.inr (Or.inl ⟨s, st1, hl2⟩)
    | ok st2 =>
      rw [hl2, except_ok_bind] at h
      cases hc : ops.count st2 with
      | error e3 =>
        rw [hc, except_error_bind] at h
        cases h
        exact Or.inr (Or.inr (Or.inl ⟨st2, hc⟩))
      | ok p =>
        rw [hc, except_ok_bind] at h
        cases hl3 : ops.light true p.1 with
        | error e4 =>
          rw [hl3, except_error_bind] at h
          cases h
          exact Or.inl ⟨true, p.1, hl3⟩
        | ok st3 =>
          rw [hl3, except_ok_bind] at h
          cases hq : count_loopE ops n st3 with
          | error e5 =>
            rw [hq, except_error_bind] at h
            cases h
            obtain ⟨st', hst'⟩ := count_loopE_error_src ops n st3 _ hq
            exact Or.inr (Or.inr (Or.inl ⟨st', hst'⟩))
          | ok q =>
            rw [hq, except_ok_bind] at h
            cases hl4 : ops.light false q.1 with
            | error e6 =>
              rw [hl4, except_error_bind] at h
              cases h
              exact Or.inl ⟨false, q.1, hl4⟩
            | ok st4 =>
              rw [hl4, except_ok_bind] at h
              exact absurd h (by simp)

lemma dark_light_collectionE_total {E : Type} (ops : OpsE E)
    (hL : ∀ b st', ∃ r, ops.light b st' = Except.ok r)
    (hS : ∀ m st', ∃ r, ops.load_sample m st' = Except.ok r)
    (hC : ∀ st', ∃ r, ops.count st' = Except.ok r)
    (s : Int) (n : Nat) (st : HW) :
    ∃ r, dark_light_collectionE ops s n st = Except.ok r := by
  obtain ⟨st1, h1⟩ := hL false st
  obtain ⟨st2, h2⟩ := hS s st1
  obtain ⟨p, h3⟩ := hC st2
  obtain ⟨st3, h4⟩ := hL true p.1
  obtain ⟨q, h5⟩ := count_loopE_total ops hC n st3
  obtain ⟨st4, h6⟩ := hL false q.1
  exact ⟨(st4, p.2 :: q.2),
    by simp only [dark_light_collectionE, h1, except_ok_bind, h2, h3, h4, h5, h6]⟩

lemma reduce_subE_error_src {E : Type} (red : RedOpsE E) (dark : Image)
    (l : List Nat) (e : E) (h : reduce_subE red dark l = Except.error e) :
    red_raises red e := by
  induction l with
  | nil => simp [reduce_subE] at h
  | cons u rest ih =>
    rw [reduce_subE] at h
    cases hr : red.retrieve u with
    | error e1 =>
      rw [hr, except_error_bind] at h
      cases h
      exact Or.inl ⟨u, hr⟩
    | ok im =>
      rw [hr, except_ok_bind] at h
      cases hi : red.integrate (im_sub im dark) with
      | error e2 =>
        rw [hi, except_error_bind] at h
        cases h
        exact Or.inr ⟨im_sub im dark, hi⟩
      | ok c =>
        rw [hi, except_ok_bind] at h
        cases hm : reduce_subE red dark rest with
        | error e3 =>
          rw [hm, except_error_bind] at h
          cases h
          exact ih hm
        | ok more =>
          rw [hm, except_ok_bind] at h
          exact absurd h (by simp)

lemma reduce_rawE_error_src {E : Type} (red : RedOpsE E) (l : List Nat) (e : E)
    (h : reduce_rawE red l = Except.error e) : red_raises red e := by
  induction l with
  | nil => simp [reduce_rawE] at h
  | cons u rest ih =>
    rw [reduce_rawE] at h
    cases hr : red.retrieve u with
    | error e1 =>
      rw [hr, except_error_bind] at h
      cases h
      exact Or.inl ⟨u, hr⟩
    | ok im =>
      rw [hr, except_ok_bind] at h
      cases hi : red.integrate im with
      | error e2 =>
        rw [hi, except_error_bind] at h
        cases h
        exact Or.inr ⟨im, hi⟩
      | ok c =>
        rw [hi, except_ok_bind] at h
        cases hm : reduce_rawE red rest with
        | error e3 =>
          rw [hm, except_error_bind] at h
          cases h
          exact ih hm
        | ok more =>
          rw [hm, except_ok_bind] at h
          exact absurd h (by simp)

lemma process_dataE_error_src {E : Type} (red : RedOpsE E)
    (return_dark return_light : Bool) (uids : List Nat) (e : E)
    (h : process_dataE red return_dark return_light uids = Except.error e) :
    red_raises red e := by
  cases uids with
  | nil => simp [process_dataE] at h
  | cons d ls =>
    rw [process_dataE] at h
    split at h
    · cases hr : red.retrieve d with
      | error e1 =>
        rw [hr, except_error_bind] at h
        cases h
        exact Or.inl ⟨d, hr⟩
      | ok dark =>
        rw [hr, except_ok_bind] at h
        cases hi : red.integrate dark with
        | error e2 =>
          rw [hi, except_error_bind] at h
          cases h
          exact Or.inr ⟨dark, hi⟩
        | ok c =>
          rw [hi, except_ok_bind] at h
          exact absurd h (by simp)
    · split at h
      · exact reduce_rawE_error_src red ls e h
      · cases hr : red.retrieve d with
        | error e1 =>
          rw [hr, except_error_bind] at h
          cases h
          exact Or.inl ⟨d, hr⟩
        | ok dark =>
          rw [hr, except_ok_bind] at h
          exact reduce_subE_error_src red dark ls e h

lemma reduce_subE_total {E : Type} (red : RedOpsE E)
    (hR : ∀ u, ∃ im, red.retrieve u = Except.ok im)
    (hI : ∀ im, ∃ c, red.integrate im = Except.ok c)
    (dark : Image) (l : List Nat) :
    ∃ r, reduce_subE red dark l = Except.ok r := by
  induction l with
  | nil => exact ⟨[], rfl⟩
  | cons u rest ih =>
    obtain ⟨im, h1⟩ := hR u
    obtain ⟨c, h2⟩ := hI (im_sub im dark)
    obtain ⟨more, h3⟩ := ih
    exact ⟨c :: more,
      by rw [reduce_subE, h1, except_ok_bind, h2, except_ok_bind, h3, except_ok_bind]⟩

lemma reduce_rawE_total {E : Type} (red : RedOpsE E)
    (hR : ∀ u, ∃ im, red.retrieve u = Except.ok im)
    (hI : ∀ im, ∃ c, red.integrate im = Except.ok c)
    (l : List Nat) : ∃ r, reduce_rawE red l = Except.ok r := by
  induction l with
  | nil => exact ⟨[], rfl⟩
  | cons u rest ih =>
    obtain ⟨im, h1⟩ := hR u
    obtain ⟨c, h2⟩ := hI im
    obtain ⟨more, h3⟩ := ih
    exact ⟨c :: more,
      by rw [reduce_rawE, h1, except_ok_bind, h2, except_ok_bind, h3, except_ok_bind]⟩

lemma process_dataE_total {E : Type} (red : RedOpsE E)
    (hR : ∀ u, ∃ im, red.retrieve u = Except.ok im)
    (hI : ∀ im, ∃ c, red.integrate im = Except.ok c)
    (return_dark return_light : Bool) (uids : List Nat) :
    ∃ r, process_dataE red return_dark return_light uids = Except.ok r := by
  cases uids with
  | nil => exact ⟨[], rfl⟩
  | cons d ls =>
    cases return_dark with
    | true =>
      obtain ⟨dark, h1⟩ := hR d
      obtain ⟨c, h2⟩ := hI dark
      exact ⟨[c], by simp [process_dataE, h1, h2, except_ok_bind]⟩
    | false =>
      cases return_light with
      | true =>
        obtain ⟨r, hr⟩ := reduce_rawE_total red hR hI ls
        exact ⟨r, by simp [process_dataE, hr]⟩
      | false =>
        obtain ⟨dark, h1⟩ := hR d
        obtain ⟨r, h2⟩ := reduce_subE_total red hR hI dark ls
        exact ⟨r, by simp [process_dataE, h1, h2, except_ok_bind]⟩

lemma custom_planE_error_src {E : Type} (ops : OpsE E) (red : RedOpsE E)
    (s : Int) (t : Nat) :
    ∀ (k : Nat) (st : HW) (l : List (List Intensity)) (e : E),
      custom_planE ops red s t k st l = Except.error e →
      prim_raises ops e ∨ red_raises red e := by
  intro k
  induction k with
  | zero =>
    intro st l e h
    simp [custom_planE] at h
  | succ j ih =>
    intro st l e h
    rw [custom_planE] at h
    cases h1 : dark_light_collectionE ops s 1 st with
    | error e1 =>
      rw [h1, except_error_bind] at h
      cases h
      exact Or.inl (dark_light_collectionE_error_src ops s 1 st _ h1)
    | ok r =>
      rw [h1, except_ok_bind] at h
      cases h2 : process_dataE red false false r.2 with
      | error e2 =>
        rw [h2, except_error_bind] at h
        cases h
        exact Or.inr (process_dataE_error_src red false false r.2 _ h2)
      | ok curves =>
        rw [h2, except_ok_bind] at h
        cases h3 : ops.sleep t r.1 with
        | error e3 =>
          rw [h3, except_error_bind] at h
          cases h
          exact Or.inl (Or.inr (Or.inr (Or.inr ⟨t, r.1, h3⟩)))
        | ok st2 =>
          rw [h3, except_ok_bind] at h
          exact ih st2 (l ++ [curves]) e h

lemma custom_planE_total {E : Type} (ops : OpsE E) (red : RedOpsE E)
    (hL : ∀ b st', ∃ r, ops.light b st' = Except.ok r)
    (hS : ∀ m st', ∃ r, ops.load_sample m st' = Except.ok r)
    (hC : ∀ st', ∃ r, ops.count st' = Except.ok r)
    (hSl : ∀ u st', ∃ r, ops.sleep u st' = Except.ok r)
    (hR : ∀ u, ∃ im, red.retrieve u = Except.ok im)
    (hI : ∀ im, ∃ c, red.integrate im = Except.ok c)
    (s : Int) (t : Nat) :
    ∀ (k : Nat) (st : HW) (l : List (List Intensity)),
      ∃ r, custom_planE ops red s t k st l = Except.ok r := by
  intro k
  induction k with
  | zero =>
    intro st l
    exact ⟨(st, l), rfl⟩
  | succ j ih =>
    intro st l
    obtain ⟨r, h1⟩ := dark_light_collectionE_total ops hL hS hC s 1 st
    obtain ⟨curves, h2⟩ := process_dataE_total red hR hI false false r.2
    obtain ⟨st2, h3⟩ := hSl t r.1
    obtain ⟨r2, h4⟩ := ih st2 (l ++ [curves])
    exact ⟨r2, by simp only [custom_planE, h1, except_ok_bind, h2, h3, h4]⟩

/-! ### The claims -/

/-- Claim C1: for every sample number `s`, every `num_lights = n ≥ 1` and
every engine state, the plan `dark_light_collection(s, num_lights=n)`
returns the list of run identifiers of the runs it performed in
dark-then-light order: the identifier of the single dark exposure (the
exposure taken with the shutter closed) is the first element, followed by
the identifiers of the `n` light exposures (those taken with the shutter
open) in the order they were taken. -/
theorem dark_light_collection_uids_dark_then_light
    (s : Int) (n : Nat) (st : HW) (hn : 1 ≤ n) :
    (dark_light_collection s n st).2.1 =
        dark_uids st.shutter (dark_light_collection s n st).2.2 ++
          light_uids st.shutter (dark_light_collection s n st).2.2 ∧
    (dark_uids st.shutter (dark_light_collection s n st).2.2).length = 1 ∧
    (light_uids st.shutter (dark_light_collection s n st).2.2).length = n := by
  have _ := hn
  refine ⟨?_, ?_, ?_⟩
  · rw [dark_light_collection_uids, dark_uids_dlc, light_uids_dlc]
    simp
  · rw [dark_uids_dlc]
    rfl
  · rw [light_uids_dlc]
    simp

/-- Witness for C1 at `s = 1`, `n = 1` and the initial hardware state. -/
theorem dark_light_collection_uids_dark_then_light_witness :
    1 ≤ 1 ∧
    ((dark_light_collection 1 1 ⟨false, none, 0, 0⟩).2.1 =
        dark_uids false (dark_light_collection 1 1 ⟨false, none, 0, 0⟩).2.2 ++
          light_uids false (dark_light_collection 1 1 ⟨false, none, 0, 0⟩).2.2 ∧
      (dark_uids false (dark_light_collection 1 1 ⟨false, none, 0, 0⟩).2.2).length = 1 ∧
      (light_uids false (dark_light_collection 1 1 ⟨false, none, 0, 0⟩).2.2).length = 1) :=
  ⟨by decide,
   dark_light_collection_uids_dark_then_light 1 1 ⟨false, none, 0, 0⟩ (by decide)⟩

/-- Claim C3: an execution of `dark_light_collection(s, num_lights=n)`
performs its instrument actions in exactly the order: close the shutter,
load sample `s`, one exposure (the dark), open the shutter, `n` exposures
(the lights), close the shutter.  Consequently the dark exposure is taken
with the shutter closed (it is the unique closed-shutter exposure), no
light exposure is taken with the shutter closed, and the shutter is closed
when the plan finishes. -/
theorem dark_light_collection_action_order (s : Int) (n : Nat) (st : HW) :
    (dark_light_collection s n st).2.2 =
        [Ev.shutter false, Ev.load s, Ev.exposure st.nextUid, Ev.shutter true]
          ++ ((List.range n).map (fun i => st.nextUid + 1 + i)).map Ev.exposure
          ++ [Ev.shutter false] ∧
    dark_uids st.shutter (dark_light_collection s n st).2.2 = [st.nextUid] ∧
    light_uids st.shutter (dark_light_collection s n st).2.2 =
        (List.range n).map (fun i => st.nextUid + 1 + i) ∧
    (dark_light_collection s n st).1.shutter = false :=
  ⟨dark_light_collection_trace s n st, dark_uids_dlc s n st, light_uids_dlc s n st,
   by rw [dark_light_collection_state]⟩

/-- Claim C7: `dark_light_collection(s, num_lights=n)` performs exactly
`n + 1` detector exposures and returns exactly `n + 1` run identifiers for
every `n ≥ 0`; with the notebook's default `num_lights = 1` the list has 2
entries, and with `num_lights = 0` it returns only the dark run's
identifier (zero light exposures are permitted: nothing enforces a
one-or-more-lights precondition). -/
theorem dark_light_collection_exposure_counts (s : Int) (n : Nat) (st : HW) :
    num_exposures (dark_light_collection s n st).2.2 = n + 1 ∧
    ((dark_light_collection s n st).2.1).length = n + 1 ∧
    ((dark_light_collection s 1 st).2.1).length = 2 ∧
    (dark_light_collection s 0 st).2.1 =
        dark_uids st.shutter (dark_light_collection s 0 st).2.2 ∧
    light_uids st.shutter (dark_light_collection s 0 st).2.2 = [] := by
  refine ⟨?_, ?_, ?_, ?_, ?_⟩
  · rw [dark_light_collection_trace]
    simp [num_exposures_append, num_exposures, num_exposures_map_exposure,
      Function.comp_def]
  · rw [dark_light_collection_uids]
    simp
  · rw [dark_light_collection_uids]
    simp
  · rw [dark_light_collection_uids, dark_uids_dlc]
    simp
  · rw [light_uids_dlc]
    simp

/-- Claim C9: for every operator string, `mega_plan(operator)` performs
exactly six runs in a fixed order: for each sample `'A'`, `'B'`, `'C'` in
that order, first a count run with metadata `operator`, `role =
'calibration'` and that sample, then a scan run with metadata `operator`,
`role = 'ascan'` and that sample. -/
theorem mega_plan_runs (operator : String) :
    mega_plan operator =
      [{ kind := RunKind.count_run,
         md := { operator := operator, role := "calibration", sample := "A" } },
       { kind := RunKind.scan_run (-1) 3 10,
         md := { operator := operator, role := "ascan", sample := "A" } },
       { kind := RunKind.count_run,
         md := { operator := operator, role := "calibration", sample := "B" } },
       { kind := RunKind.scan_run (-1) 3 10,
         md := { operator := operator, role := "ascan", sample := "B" } },
       { kind := RunKind.count_run,
         md := { operator := operator, role := "calibration", sample := "C" } },
       { kind := RunKind.scan_run (-1) 3 10,
         md := { operator := operator, role := "ascan", sample := "C" } }] ∧
    (mega_plan operator).length = 6 :=
  ⟨rfl, rfl⟩

/-- Claim C6: for the most recently inserted run header `h` (the broker
holds its headers most recent first), indexing the data broker by `h`'s
full run identifier returns `h` itself, and indexing it by the partial
identifier made of the first five characters of that identifier also
returns `h`; these are the two assertions of the uid-search cell. -/
theorem broker_lookup_full_and_partial_uid (h : Header) (rest : List Header) :
    broker_lookup (h :: rest) h.uid = some h ∧
    broker_lookup (h :: rest) (h.uid.take 5) = some h := by
  constructor
  · simp [broker_lookup, List.find?_cons_of_pos, List.isPrefixOf_iff_prefix]
  · simp [broker_lookup, List.find?_cons_of_pos, List.isPrefixOf_iff_prefix,
      List.take_prefix]

/-- Claim C2: for every list of run identifiers whose first element names
the dark run and whose remaining elements name the light runs,
`process_data` retrieves the corresponding images from the store,
subtracts the dark image from each light image, integrates each
difference, and returns the resulting intensity curves in order; with
`return_dark = True` it returns only the reduced dark component, and with
`return_light = True` only the reduced light components. -/
theorem process_data_reduction (retrieve : Nat → Image)
    (integrate : Image → Intensity) (darkUid : Nat) (lightUids : List Nat) :
    process_data retrieve integrate false false (darkUid :: lightUids) =
        lightUids.map (fun u => integrate (im_sub (retrieve u) (retrieve darkUid))) ∧
    process_data retrieve integrate true false (darkUid :: lightUids) =
        [integrate (retrieve darkUid)] ∧
    process_data retrieve integrate false true (darkUid :: lightUids) =
        lightUids.map (fun u => integrate (retrieve u)) := by
  refine ⟨?_, rfl, ?_⟩
  · rw [process_data]
    simp [reduce_sub_eq_map]
  · rw [process_data]
    simp [reduce_raw_eq_map]

/-- Claim C8: the fit model `gaussian(x, A, sigma, x0)` is, for every `A`,
`x0` and nonzero `sigma`, symmetric about `x0`, equal to `A` at `x = x0`,
and bounded above by `A` everywhere when `A ≥ 0`. -/
theorem gaussian_symmetric_peak_bounded (A sigma x0 : ℝ) (hs : sigma ≠ 0) :
    (∀ d, gaussian (x0 + d) A sigma x0 = gaussian (x0 - d) A sigma x0) ∧
    gaussian x0 A sigma x0 = A ∧
    (0 ≤ A → ∀ x, gaussian x A sigma x0 ≤ A) := by
  refine ⟨?_, ?_, ?_⟩
  · intro d
    unfold gaussian
    congr 2
    ring
  · unfold gaussian
    simp
  · intro hA x
    have hsq : 0 < 2 * sigma ^ 2 := by positivity
    have ht : -(x - x0) ^ 2 / (2 * sigma ^ 2) ≤ 0 := by
      apply div_nonpos_of_nonpos_of_nonneg
      · simpa using sq_nonneg (x - x0)
      · linarith
    have he : Real.exp (-(x - x0) ^ 2 / (2 * sigma ^ 2)) ≤ 1 :=
      Real.exp_le_one_iff.mpr ht
    calc gaussian x A sigma x0
        = A * Real.exp (-(x - x0) ^ 2 / (2 * sigma ^ 2)) := rfl
      _ ≤ A * 1 := mul_le_mul_of_nonneg_left he hA
      _ = A := mul_one A

/-- Witness for C8 at `A = 1`, `sigma = 1`, `x0 = 0`: the hypothesis
`sigma ≠ 0` holds and the model takes the value `A = 1` at the peak. -/
theorem gaussian_symmetric_peak_bounded_witness :
    (1 : ℝ) ≠ 0 ∧ gaussian 0 1 1 0 = 1 :=
  ⟨one_ne_zero, (gaussian_symmetric_peak_bounded 1 1 0 one_ne_zero).2.1⟩

/-- Claim C4 as stated fails on `custom_plan`: counterexample at a
concrete input.  Running `custom_plan(1, sleep_time=60, num_loops=1)` from
an empty module-level `new_int_list` and the initial hardware state leaves
`new_int_list` non-empty and the engine state changed, so state outside
the procedure's own local variables is not unchanged by running it. -/
theorem custom_plan_mutates_outside_state :
    (custom_plan (fun _ => [0]) (fun im => im) 1 60 1
        { shutter := false, sample := none, nextUid := 0, clock := 0 } []).2 ≠ [] ∧
    (custom_plan (fun _ => [0]) (fun im => im) 1 60 1
        { shutter := false, sample := none, nextUid := 0, clock := 0 } []).1 ≠
      { shutter := false, sample := none, nextUid := 0, clock := 0 } :=
  ⟨by decide, by decide⟩

/-- Claim C4, amended: `dark_light_collection` and `process_data` keep no
state beyond their explicit arguments and results, but `custom_plan(s,
sleep_time=t, num_loops=k)` writes mutable state that persists outside the
invocation: it appends exactly one entry per loop iteration to the
module-level list `new_int_list` — extending it by `k` entries while
preserving the existing ones as a prefix — and advances the engine state
by two runs and `t` simulated seconds of sleep per iteration. -/
theorem custom_plan_state_effects (retrieve : Nat → Image)
    (integrate : Image → Intensity) (s : Int) (t k : Nat) (st : HW)
    (new_int_list : List (List Intensity)) :
    ((custom_plan retrieve integrate s t k st new_int_list).2).length =
        new_int_list.length + k ∧
    new_int_list <+: (custom_plan retrieve integrate s t k st new_int_list).2 ∧
    (custom_plan retrieve integrate s t k st new_int_list).1.nextUid =
        st.nextUid + 2 * k ∧
    (custom_plan retrieve integrate s t k st new_int_list).1.clock =
        st.clock + k * t := by
  induction k generalizing st new_int_list with
  | zero => simp [custom_plan, Nat.mul_zero]
  | succ j ih =>
    obtain ⟨h1, h2, h3, h4⟩ := ih (sim_sleep t (dark_light_collection s 1 st).1)
      (new_int_list ++ [process_data retrieve integrate false false
        (dark_light_collection s 1 st).2.1])
    simp only [custom_plan]
    refine ⟨?_, ?_, ?_, ?_⟩
    · rw [h1]
      simp
      omega
    · exact (List.prefix_append _ _).trans h2
    · rw [h3]
      simp [sim_sleep, dark_light_collection_state]
      omega
    · rw [h4]
      simp [sim_sleep, dark_light_collection_state, Nat.succ_mul]
      omega

/-- Claim C5: the helpers implement no error handling of their own.  In
the `Except` model of Python exceptions, every underlying framework call —
shutter control, sample load, detector count, image retrieval,
integration (and the simulated sleep) — may raise, and whichever call the
helper reaches raises an error value `e`, the helper returns exactly
`Except.error e`: six conjuncts cover the call sites of
`dark_light_collection` (including any iteration of the light loop),
three cover the retrieval and integration sites inside `process_data`,
and three cover `custom_plan` propagating a raise out of the collection,
the reduction, or the sleep.  Every error a helper returns is one some
primitive raised, verbatim, so no author-defined error value is ever
returned; and when no primitive ever raises, the helpers return
normally. -/
theorem helpers_propagate_exceptions {E : Type} (ops : OpsE E)
    (red : RedOpsE E)
    (s : Int) (n t k : Nat) (st : HW) (new_int_list : List (List Intensity)) :
    (∀ e, ops.light false st = Except.error e →
      dark_light_collectionE ops s n st = Except.error e) ∧
    (∀ st1 e, ops.light false st = Except.ok st1 →
      ops.load_sample s st1 = Except.error e →
      dark_light_collectionE ops s n st = Except.error e) ∧
    (∀ st1 st2 e, ops.light false st = Except.ok st1 →
      ops.load_sample s st1 = Except.ok st2 →
      ops.count st2 = Except.error e →
      dark_light_collectionE ops s n st = Except.error e) ∧
    (∀ st1 st2 p e, ops.light false st = Except.ok st1 →
      ops.load_sample s st1 = Except.ok st2 →
      ops.count st2 = Except.ok p →
      ops.light true p.1 = Except.error e →
      dark_light_collectionE ops s n st = Except.error e) ∧
    (∀ st1 st2 p st3 e, ops.light false st = Except.ok st1 →
      ops.load_sample s st1 = Except.ok st2 →
      ops.count st2 = Except.ok p →
      ops.light true p.1 = Except.ok st3 →
      count_loopE ops n st3 = Except.error e →
      dark_light_collectionE ops s n st = Except.error e) ∧
    (∀ st1 st2 p st3 q e, ops.light false st = Except.ok st1 →
      ops.load_sample s st1 = Except.ok st2 →
      ops.count st2 = Except.ok p →
      ops.light true p.1 = Except.ok st3 →
      count_loopE ops n st3 = Except.ok q →
      ops.light false q.1 = Except.error e →
      dark_light_collectionE ops s n st = Except.error e) ∧
    (∀ e, dark_light_collectionE ops s n st = Except.error e →
      prim_raises ops e) ∧
    (∀ d ls e, red.retrieve d = Except.error e →
      process_dataE red false false (d :: ls) = Except.error e) ∧
    (∀ d u ls dark e, red.retrieve d = Except.ok dark →
      red.retrieve u = Except.error e →
      process_dataE red false false (d :: u :: ls) = Except.error e) ∧
    (∀ d u ls dark im e, red.retrieve d = Except.ok dark →
      red.retrieve u = Except.ok im →
      red.integrate (im_sub im dark) = Except.error e →
      process_dataE red false false (d :: u :: ls) = Except.error e) ∧
    (∀ bd bl uids e, process_dataE red bd bl uids = Except.error e →
      red_raises red e) ∧
    (∀ e, dark_light_collectionE ops s 1 st = Except.error e →
      custom_planE ops red s t (k + 1) st new_int_list = Except.error e) ∧
    (∀ r e, dark_light_collectionE ops s 1 st = Except.ok r →
      process_dataE red false false r.2 = Except.error e →
      custom_planE ops red s t (k + 1) st new_int_list = Except.error e) ∧
    (∀ r c e, dark_light_collectionE ops s 1 st = Except.ok r →
      process_dataE red false false r.2 = Except.ok c →
      ops.sleep t r.1 = Except.error e →
      custom_planE ops red s t (k + 1) st new_int_list = Except.error e) ∧
    (∀ e, custom_planE ops red s t k st new_int_list = Except.error e →
      prim_raises ops e ∨ red_raises red e) ∧
    ((∀ b st', ∃ r, ops.light b st' = Except.ok r) →
     (∀ m st', ∃ r, ops.load_sample m st' = Except.ok r) →
     (∀ st', ∃ r, ops.count st' = Except.ok r) →
     (∀ u st', ∃ r, ops.sleep u st' = Except.ok r) →
     (∀ u, ∃ im, red.retrieve u = Except.ok im) →
     (∀ im, ∃ c, red.integrate im = Except.ok c) →
     (∃ r, dark_light_collectionE ops s n st = Except.ok r) ∧
     (∃ r, custom_planE ops red s t k st new_int_list = Except.ok r)) := by
  refine ⟨?_, ?_, ?_, ?_, ?_, ?_, ?_, ?_, ?_, ?_, ?_, ?_, ?_, ?_, ?_, ?_⟩
  · intro e h
    simp only [dark_light_collectionE, h, except_error_bind]
  · intro st1 e h1 h2
    simp only [dark_light_collectionE, h1, except_ok_bind, h2, except_error_bind]
  · intro st1 st2 e h1 h2 h3
    simp only [dark_light_collectionE, h1, except_ok_bind, h2, h3, except_error_bind]
  · intro st1 st2 p e h1 h2 h3 h4
    simp only [dark_light_collectionE, h1, except_ok_bind, h2, h3, h4,
      except_error_bind]
  · intro st1 st2 p st3 e h1 h2 h3 h4 h5
    simp only [dark_light_collectionE, h1, except_ok_bind, h2, h3, h4, h5,
      except_error_bind]
  · intro st1 st2 p st3 q e h1 h2 h3 h4 h5 h6
    simp only [dark_light_collectionE, h1, except_ok_bind, h2, h3, h4, h5, h6,
      except_error_bind]
  · intro e h
    exact dark_light_collectionE_error_src ops s n st e h
  · intro d ls e h
    simp [process_dataE, h, except_error_bind]
  · intro d u ls dark e h1 h2
    simp [process_dataE, reduce_subE, h1, h2, except_ok_bind, except_error_bind]
  · intro d u ls dark im e h1 h2 h3
    simp [process_dataE, reduce_subE, h1, h2, h3, except_ok_bind, except_error_bind]
  · intro bd bl uids e h
    exact process_dataE_error_src red bd bl uids e h
  · intro e h
    simp only [custom_planE, h, except_error_bind]
  · intro r e h1 h2
    simp only [custom_planE, h1, except_ok_bind, h2, except_error_bind]
  · intro r c e h1 h2 h3
    simp only [custom_planE, h1, except_ok_bind, h2, h3, except_error_bind]
  · intro e h
    exact custom_planE_error_src ops red s t k st new_int_list e h
  · intro hL hS hC hSl hR hI
    exact ⟨dark_light_collectionE_total ops hL hS hC s n st,
      custom_planE_total ops red hL hS hC hSl hR hI s t k st new_int_list⟩

/-- Fallible instrument primitives that all succeed except the shutter
control, which always raises the error value `42`. -/
def shutter_fails : OpsE Nat :=
  { light := fun _ _ => Except.error 42,
    load_sample := fun m st => Except.ok (load_sample m st),
    count := fun st => Except.ok (count st),
    sleep := fun t st => Except.ok (sim_sleep t st) }

/-- Fallible reduction primitives whose image retrieval always raises the
error value `7` while integration succeeds. -/
def retrieval_fails : RedOpsE Nat :=
  { retrieve := fun _ => Except.error 7,
    integrate := fun im => Except.ok im }

/-- Witness for C5: with a shutter control that raises `42`, the very
first framework call of `dark_light_collection` raises and the plan
returns exactly that error value; and with an image store that raises `7`,
the dark retrieval inside `process_data` raises and the helper returns
exactly that error value. -/
theorem helpers_propagate_exceptions_witness :
    (shutter_fails.light false ⟨false, none, 0, 0⟩ = Except.error 42 ∧
      dark_light_collectionE shutter_fails 1 1 ⟨false, none, 0, 0⟩ =
        Except.error 42) ∧
    (retrieval_fails.retrieve 0 = Except.error 7 ∧
      process_dataE retrieval_fails false false [0, 1] = Except.error 7) :=
  ⟨⟨rfl,
    (helpers_propagate_exceptions shutter_fails retrieval_fails
       1 1 0 0 ⟨false, none, 0, 0⟩ []).1 42 rfl⟩,
   ⟨rfl,
    (helpers_propagate_exceptions shutter_fails retrieval_fails
       1 1 0 0 ⟨false, none, 0, 0⟩ []).2.2.2.2.2.2.2.1 0 [1] 7 rfl⟩⟩

end TutorialDocker
